import Mathlib

/-
Verification development for the hera_corr_cm command dispatch and
status-polling protocol.

The embedding follows the source of the repository:
  * hera_corr_cm/hera_corr_cm.py   — caller side (HeraCorrCM)
  * hera_corr_cm/hera_corr_handler.py — executor side (HeraCorrHandler)
  * scripts/hera_corr_cmd_handler.py  — executor main loop

Timestamps are modelled as rationals (the Python code uses floats only for
comparison and subtraction here, never for rounding-sensitive arithmetic).
The caller compares the "time" and "command" fields of the status hash as
the strings redis delivers (decode_responses=True), so the caller-side
model keeps them as strings, exactly as the source does.
-/

/-- The parsed "args" JSON object of a status record, as consumed by the
caller (json.loads of the args field).  Only numeric fields are ever read
by the callers modelled here (response["starttime"], response["val"]). -/
abbrev RespObj : Type := List (String × ℚ)

/-- Dictionary lookup, modelling Python `response[key]` where a missing key
raises KeyError (returned here as none). -/
def rlookup (resp : RespObj) (key : String) : Option ℚ :=
  (resp.find? (fun p => p.1 = key)).map (fun p => p.2)

/-- One status record as read from the redis hash corr:cmd_status by
HeraCorrCM._get_response.  `command` and `time` are the transmitted
strings; `args` is none when the "args" field is absent (the KeyError
branch of the source) and some of the parsed object otherwise; `status`
is the raw status string ("running" / "errored" / "complete"). -/
structure StatusRec where
  command : String
  time : String
  args : Option RespObj
  status : String
deriving DecidableEq

/-- The action _get_response takes after reading corr:cmd_status once:
keep polling, or return.  `timedOut` and `errored` both correspond to a
bare `return` (Python None) in the source; they are distinguished here so
that theorems can speak about which branch produced the return. -/
inductive PollResult where
  | cont
  | timedOut
  | errored
  | complete (resp : RespObj)
deriving DecidableEq

/-- One iteration of the while(True) loop of HeraCorrCM._get_response
(hera_corr_cm.py lines 95-137).  `targetCmd`/`targetTime` are the decoded
fields of the sent envelope; `timeout` is the timeout argument (none =
Python None); `elapsed` is time.time() - wait_time at the moment of the
timeout check; `obs` is the hash read, none when the hash was empty.
The branch `st.time < targetCmd` reproduces the source's string
comparison of a time against a command name (line 129); both of its
outcomes continue the loop, exactly as in the source. -/
def pollStep (targetCmd targetTime : String) (timeout : Option ℚ)
    (elapsed : ℚ) (obs : Option StatusRec) : PollResult :=
  match obs with
  | none => .cont
  | some st =>
    match st.args with
    | none => .cont
    | some resp =>
      if st.command = targetCmd ∧ st.time = targetTime then
        if st.status = "running" then
          match timeout with
          | some t => if elapsed > t then .timedOut else .cont
          | none => .cont
        else if st.status = "errored" then .errored
        else if st.status = "complete" then .complete resp
        else .cont
      else if st.time < targetCmd then .cont
      else .cont

/-- The polling loop of _get_response run over a finite trace of
observations, each paired with the elapsed time at which it is read.
Returns none when every observation led to `continue` (in the source the
loop would still be running), otherwise the first non-continue result. -/
def runPoll (targetCmd targetTime : String) (timeout : Option ℚ) :
    List (ℚ × Option StatusRec) → Option PollResult
  | [] => none
  | (e, obs) :: rest =>
    match pollStep targetCmd targetTime timeout e obs with
    | .cont => runPoll targetCmd targetTime timeout rest
    | r => some r

/-- The Python value _get_response hands back for each loop exit:
`return` with no value (timeout and errored branches) is None, i.e.
`some none`; the complete branch returns the parsed response.  `none`
means the function has not returned. -/
def returnedValue : PollResult → Option (Option RespObj)
  | .cont => none
  | .timedOut => some none
  | .errored => some none
  | .complete r => some (some r)

/-- The value returned by _get_response over a finite observation trace:
none when the loop is still running after the trace, otherwise the Python
return value (none = Python None). -/
def getResponse (targetCmd targetTime : String) (timeout : Option ℚ)
    (trace : List (ℚ × Option StatusRec)) : Option (Option RespObj) :=
  match runPoll targetCmd targetTime timeout trace with
  | none => none
  | some r => returnedValue r

/-- Helper: a non-matching (or absent-args) observation always continues
the loop. -/
theorem pollStep_cont_of_not_match (targetCmd targetTime : String)
    (timeout : Option ℚ) (elapsed : ℚ) (st : StatusRec)
    (h : ¬(st.command = targetCmd ∧ st.time = targetTime)) :
    pollStep targetCmd targetTime timeout elapsed (some st) = .cont := by
  rcases st with ⟨c, t, args, s⟩
  cases args with
  | none => rfl
  | some resp =>
    show (if c = targetCmd ∧ t = targetTime then _ else
      if t < targetCmd then PollResult.cont else PollResult.cont) = PollResult.cont
    rw [if_neg h]
    split <;> rfl

/-- C1: every return of _get_response — complete, errored, even the
timeout return — happens only while observing a status record whose
command name and issue time exactly equal (as transmitted strings) those
of the awaited envelope; a record differing in issue_time can only
continue the loop, so its outcome is never returned. -/
theorem getResponse_step_identity (targetCmd targetTime : String)
    (timeout : Option ℚ) (elapsed : ℚ) (st : StatusRec)
    (h : pollStep targetCmd targetTime timeout elapsed (some st) ≠ .cont) :
    st.command = targetCmd ∧ st.time = targetTime := by
  by_contra hm
  exact h (pollStep_cont_of_not_match targetCmd targetTime timeout elapsed st hm)

/-- C1 witness: at a concrete matching errored record the step returns
(is not `cont`) and the identity conclusion holds. -/
theorem getResponse_step_identity_witness :
    pollStep "record" "100.0" none 0
      (some ⟨"record", "100.0", some [], "errored"⟩) ≠ PollResult.cont ∧
    ((⟨"record", "100.0", some [], "errored"⟩ : StatusRec).command = "record" ∧
     (⟨"record", "100.0", some [], "errored"⟩ : StatusRec).time = "100.0") :=
  ⟨by decide, getResponse_step_identity "record" "100.0" none 0
      ⟨"record", "100.0", some [], "errored"⟩ (by decide)⟩

/-- C4 counterexample: with a finite timeout of 1 second, observations at
elapsed times 10 and 20 with the status hash absent throughout never make
the loop return — runPoll yields none (the source loop continues forever),
not a timeout; likewise a trace holding only a mismatching record at
elapsed 10 never produces a timeout return.  This refutes the claim that
_get_response terminates with a Timeout failure once elapsed time exceeds
the timeout whenever no matching terminal status appears. -/
theorem getResponse_timeout_claim_cex :
    runPoll "record" "100.0" (some 1) [(10, none), (20, none)] = none ∧
    runPoll "record" "100.0" (some 1)
      [(10, some ⟨"stop", "50.0", some [], "running"⟩)] = none := by
  refine ⟨rfl, ?_⟩
  have h := pollStep_cont_of_not_match "record" "100.0" (some 1) 10
    ⟨"stop", "50.0", some [], "running"⟩ (by simp)
  simp [runPoll, h]

/-- C4 (amended): the timeout comparison of _get_response happens only in
the branch where the observed record matches the awaited (command, time)
and carries status "running": whenever a poll iteration returns the
timeout result, the observed record matched the envelope, its status was
"running", its args field was present, and the elapsed time strictly
exceeded the timeout.  Absent or mismatching observations only continue
the loop (see getResponse_step_identity), with no timeout check. -/
theorem getResponse_timeout_only_matching_running (targetCmd targetTime : String)
    (t elapsed : ℚ) (obs : Option StatusRec)
    (h : pollStep targetCmd targetTime (some t) elapsed obs = .timedOut) :
    ∃ st, obs = some st ∧ st.command = targetCmd ∧ st.time = targetTime ∧
      st.status = "running" ∧ st.args.isSome ∧ t < elapsed := by
  match obs with
  | none => exact absurd h (by simp [pollStep])
  | some st =>
    refine ⟨st, rfl, ?_⟩
    rcases st with ⟨c, time, args, s⟩
    cases args with
    | none => exact absurd h (by simp [pollStep])
    | some resp =>
      by_cases hm : c = targetCmd ∧ time = targetTime
      · rcases hm with ⟨hc, ht⟩
        subst hc; subst ht
        by_cases hr : s = "running"
        · subst hr
          by_cases he : elapsed > t
          · exact ⟨rfl, rfl, rfl, rfl, he⟩
          · exfalso; simp [pollStep, he] at h
        · exfalso
          by_cases he2 : s = "errored"
          · subst he2; simp [pollStep] at h
          · by_cases hc2 : s = "complete"
            · subst hc2; simp [pollStep] at h
            · simp [pollStep, hr, he2, hc2] at h
      · exact absurd h (by rw [pollStep_cont_of_not_match _ _ _ _ _ hm]; simp)

/-- C4 witness: a matching running record read at elapsed 10 with timeout
1 produces the timeout return, and the amended conclusions hold there. -/
theorem getResponse_timeout_only_matching_running_witness :
    (∃ st, (some (⟨"record", "100.0", some [], "running"⟩ : StatusRec)) = some st ∧
      st.command = "record" ∧ st.time = "100.0" ∧
      st.status = "running" ∧ st.args.isSome ∧ (1 : ℚ) < 10) :=
  getResponse_timeout_only_matching_running "record" "100.0" 1 10
    (some ⟨"record", "100.0", some [], "running"⟩) (by decide)

/-- C8 counterexample: a run that times out (matching "running" record
read at elapsed 10 with timeout 1) and a run that observes a matching
"errored" record return the very same value from _get_response — Python
None (modelled `some none`) — so the invoker cannot tell a timeout from
an executor-reported failure.  This refutes the claim that the value
returned after a timeout differs from the value returned after a matching
ERRORED status. -/
theorem getResponse_timeout_errored_same_value_cex :
    getResponse "record" "100.0" (some 1)
      [(10, some ⟨"record", "100.0", some [], "running"⟩)] = some none ∧
    getResponse "record" "100.0" (some 1)
      [(2, some ⟨"record", "100.0", some [], "errored"⟩)] = some none := by
  constructor <;> rfl

/-- C8 (amended): whenever one trace makes _get_response exit through the
timeout branch and another makes it exit through the matching-errored
branch, the two invocations return equal values (both Python None); the
two outcomes are distinguished only in log messages, never in the value
surfaced to the invoker. -/
theorem getResponse_timeout_errored_indistinguishable
    (targetCmd targetTime : String) (timeout : Option ℚ)
    (tr1 tr2 : List (ℚ × Option StatusRec))
    (h1 : runPoll targetCmd targetTime timeout tr1 = some PollResult.timedOut)
    (h2 : runPoll targetCmd targetTime timeout tr2 = some PollResult.errored) :
    getResponse targetCmd targetTime timeout tr1 =
      getResponse targetCmd targetTime timeout tr2 ∧
    getResponse targetCmd targetTime timeout tr1 = some none := by
  unfold getResponse
  rw [h1, h2]
  exact ⟨rfl, rfl⟩

/-- C8 witness: concrete timing-out and errored traces on which the
amended theorem applies, its hypotheses discharged by evaluation. -/
theorem getResponse_timeout_errored_indistinguishable_witness :
    getResponse "stop" "7.5" (some 3)
      [(11, some ⟨"stop", "7.5", some [], "running"⟩)] =
      getResponse "stop" "7.5" (some 3)
        [(1, some ⟨"stop", "7.5", some [], "errored"⟩)] ∧
    getResponse "stop" "7.5" (some 3)
      [(11, some ⟨"stop", "7.5", some [], "running"⟩)] = some none :=
  getResponse_timeout_errored_indistinguishable "stop" "7.5" (some 3)
    [(11, some ⟨"stop", "7.5", some [], "running"⟩)]
    [(1, some ⟨"stop", "7.5", some [], "errored"⟩)] (by decide) (by decide)

/-
Executor side: HeraCorrHandler (hera_corr_handler.py) driven by the main
loop of scripts/hera_corr_cmd_handler.py.  The effect of a handler run is
recorded as a trace of events: status-slot writes (_create_status /
_update_status) and external action invocations (subprocess / ssh calls).
Exceptions are modelled Except-style: a handler returns the events
performed before the raise together with the exception, and no caller in
the repository catches it (process_command and the script main loop have
no try blocks), so a raised exception terminates the main loop.
-/

/-- An observable effect of the executor: a fresh status record written by
_create_status (command name, command time, status string), a status
overwrite by _update_status (status string; the merged args and
update_time are not needed by any claim), or the launch of an external
action (the argv[0] of the subprocess / remote script). -/
inductive ExecEv where
  | create (cmd : String) (t : ℚ) (status : String)
  | update (status : String)
  | action (name : String)
deriving DecidableEq

/-- The one Python exception relevant here: calling
`self._update_status(time.time(), status="errored")`
(hera_corr_handler.py line 151) binds time.time() to the positional
parameter `status` and then passes status= again by keyword, so Python
raises TypeError before the method body runs — nothing is written. -/
inductive PyExc where
  | typeError
deriving DecidableEq

/-- The environment the executor's actions run against: outcomes of the
external processes it launches and the shared flags it reads.
`stopEarly` abbreviates the _stop_capture early-return condition
(_gpu_is_off() and then _outthread_is_blocked() both true), in which case
_stop_capture returns before `hera_ctl.py stop` and writes no status;
the Int fields are the returncodes of the listed subprocesses. -/
structure ExecEnv where
  stopEarly : Bool
  ctlRet : Int
  catcherRet : Int
  feng1Ret : Int
  feng2Ret : Int
  xtorRet : Int
  catcherUpRet : Int
  trigTime : ℚ
deriving DecidableEq

/-- HeraCorrHandler._stop_capture (lines 281-315): launches
hera_catcher_stop_data.py, and when the X-engines are not already
stopped, hera_ctl.py stop followed by an _update_status("complete")
(both the in-time and the timed-out exit of the final wait loop write
"complete"); when they are already stopped (stopEarly) it returns with
no status write. -/
def stopCapture (stopEarly : Bool) : List ExecEv :=
  if stopEarly then
    [.action "hera_catcher_stop_data.py"]
  else
    [.action "hera_catcher_stop_data.py", .action "hera_ctl.py stop",
     .update "complete"]

/-- HeraCorrHandler._xtor_down (lines 180-189): runs the two teardown
scripts and writes "complete" unconditionally (returncodes unchecked). -/
def xtorDown : List ExecEv :=
  [.action "hera_catcher_down.sh", .action "xtor_down.sh", .update "complete"]

/-- HeraCorrHandler._xtor_up (lines 191-279) as invoked from _cmd_handler,
i.e. with input_power_target and output_rms_target both None, so the two
balance blocks are skipped: two feng-init invocations, then xtor_up.py and
hera_catcher_up.py; any non-zero returncode writes "errored" and returns,
otherwise "complete" is written. -/
def xtorUp (env : ExecEnv) : List ExecEv :=
  let e1 : List ExecEv := [.action "hera_snap_feng_init.py -p"]
  if env.feng1Ret ≠ 0 then e1 ++ [.update "errored"]
  else
    let e2 := e1 ++ [ExecEv.action "hera_snap_feng_init.py -s"]
    if env.feng2Ret ≠ 0 then e2 ++ [.update "errored"]
    else
      let e3 := e2 ++ [ExecEv.action "xtor_up.py", ExecEv.action "hera_catcher_up.py"]
      if env.xtorRet ≠ 0 then e3 ++ [.update "errored"]
      else if env.catcherUpRet ≠ 0 then e3 ++ [.update "errored"]
      else e3 ++ [.update "complete"]

/-- HeraCorrHandler._start_capture (lines 121-178): first _stop_capture,
then hera_ctl.py start; a non-zero returncode there reaches the faulty
`self._update_status(time.time(), status="errored")` call, raising
TypeError (nothing written, exception propagates).  Otherwise
hera_catcher_take_data.py runs; on non-zero returncode "errored" is
written and ERROR returned, on success "complete" is written. -/
def startCapture (env : ExecEnv) : List ExecEv × Option PyExc :=
  let evs := stopCapture env.stopEarly ++ [ExecEv.action "hera_ctl.py start"]
  if env.ctlRet ≠ 0 then
    (evs, some .typeError)
  else
    let evs2 := evs ++ [ExecEv.action "hera_catcher_take_data.py"]
    if env.catcherRet ≠ 0 then
      (evs2 ++ [.update "errored"], none)
    else
      (evs2 ++ [.update "complete"], none)

/-- A command envelope as read by the executor from corr:command (the
parsed JSON: command name and issue time; the args mapping is carried
through unchanged and none of the claims depend on its contents). -/
structure Envelope where
  command : String
  time : ℚ
deriving DecidableEq

/-- HeraCorrHandler._cmd_handler (lines 317-349): dispatch on the command
name.  Only "record", "stop", "hard_stop" and "start" have branches; each
writes a fresh "running" status and (outside testmode) runs its action.
The "record" branch additionally writes "complete" (with the accepted
starttime read from corr:trig_time) after _start_capture returns — it
does so regardless of _start_capture's ERROR return value, but not when
_start_capture raised.  Any other command name falls through the
if/elif chain: no status write, no action. -/
def cmdHandler (env : ExecEnv) (msg : Envelope) (testmode : Bool) :
    List ExecEv × Option PyExc :=
  if msg.command = "record" then
    let created : List ExecEv := [.create "record" msg.time "running"]
    if testmode then (created ++ [.update "complete"], none)
    else
      let sc := startCapture env
      match sc.2 with
      | some e => (created ++ sc.1, some e)
      | none => (created ++ sc.1 ++ [.update "complete"], none)
  else if msg.command = "stop" then
    ([ExecEv.create "stop" msg.time "running"] ++
      (if testmode then [] else stopCapture env.stopEarly), none)
  else if msg.command = "hard_stop" then
    ([ExecEv.create "hard_stop" msg.time "running"] ++
      (if testmode then [] else xtorDown), none)
  else if msg.command = "start" then
    ([ExecEv.create "start" msg.time "running"] ++
      (if testmode then [] else xtorUp env), none)
  else ([], none)

/-- The sequence of status values written to the corr:cmd_status slot by a
trace of executor events, in order. -/
def statusWrites (evs : List ExecEv) : List String :=
  evs.filterMap fun e =>
    match e with
    | .create _ _ s => some s
    | .update s => some s
    | .action _ => none

/-- The external actions launched by a trace of executor events. -/
def actionsRun (evs : List ExecEv) : List String :=
  evs.filterMap fun e =>
    match e with
    | .action a => some a
    | _ => none

/-- The dedup skeleton of HeraCorrHandler.process_command (lines 41-57):
given the stored last_command_time and the message read from corr:command,
returns the new last_command_time and whether _cmd_handler is invoked.
A message is dispatched only when a last time exists and the message time
is strictly greater; with no recorded last time (fresh start) the time is
recorded and the command is not executed. -/
def processCommandDispatch (lastTime : Option ℚ) (message : Option Envelope) :
    Option ℚ × Bool :=
  match message with
  | none => (lastTime, false)
  | some msg =>
    match lastTime with
    | some lt => if msg.time > lt then (some msg.time, true) else (lastTime, false)
    | none => (some msg.time, false)

/-- Full process_command: the dedup skeleton combined with the handler
effects.  The exception component propagates to the caller — neither
process_command nor the while(True) loop of
scripts/hera_corr_cmd_handler.py wraps the call in a try block, so a
`some exc` here terminates the daemon's main loop. -/
def processCommand (lastTime : Option ℚ) (message : Option Envelope)
    (env : ExecEnv) (testmode : Bool) :
    Option ℚ × List ExecEv × Option PyExc :=
  let d := processCommandDispatch lastTime message
  match message, d.2 with
  | some msg, true => (d.1, cmdHandler env msg testmode)
  | _, _ => (d.1, [], none)

/-- C2: the claim fails on the code.  Failing input: a "record" command
whose `hera_ctl.py start` subprocess exits non-zero (returncode 1 here).
Instead of writing an "errored" status and continuing, the handler's call
`self._update_status(time.time(), status="errored")` raises TypeError
(duplicate value for the parameter status); no "errored" status is ever
written, and the exception escapes _cmd_handler and process_command into
the unprotected main loop. -/
theorem cmdHandler_ctl_failure_raises :
    (cmdHandler ⟨true, 1, 0, 0, 0, 0, 0, 0⟩ ⟨"record", 100⟩ false).2 =
      some PyExc.typeError ∧
    "errored" ∉
      statusWrites (cmdHandler ⟨true, 1, 0, 0, 0, 0, 0, 0⟩ ⟨"record", 100⟩ false).1 ∧
    (processCommand (some 50) (some ⟨"record", 100⟩)
      ⟨true, 1, 0, 0, 0, 0, 0, 0⟩ false).2.2 = some PyExc.typeError := by
  refine ⟨rfl, by decide, rfl⟩

/-- C3: the claim fails on the code.  Failing input: a "record" command
whose hera_catcher_take_data.py subprocess exits non-zero (with the
X-engines already stopped, so _stop_capture writes nothing).  The status
slot for this single (command, issue_time) instance receives the write
sequence running, errored, complete: the record branch of _cmd_handler
overwrites the terminal "errored" with "complete" because it ignores
_start_capture's ERROR return. -/
theorem cmdHandler_errored_overwritten_complete :
    statusWrites (cmdHandler ⟨true, 0, 1, 0, 0, 0, 0, 0⟩ ⟨"record", 100⟩ false).1 =
      ["running", "errored", "complete"] ∧
    (cmdHandler ⟨true, 0, 1, 0, 0, 0, 0, 0⟩ ⟨"record", 100⟩ false).2 = none := by
  refine ⟨by decide, rfl⟩

/-- C5: process_command invokes _cmd_handler on a read message exactly
when a last-processed time is recorded and the message time is strictly
greater; with no recorded last time the message is not dispatched and
only its time is recorded (so after a restart the replayed issue_time is
never executed again: it is recorded on the first read, and an equal time
is not strictly greater on any later read). -/
theorem processCommand_dedup (lastTime : Option ℚ) (msg : Envelope) :
    ((processCommandDispatch lastTime (some msg)).2 = true ↔
      ∃ lt, lastTime = some lt ∧ lt < msg.time) ∧
    processCommandDispatch none (some msg) = (some msg.time, false) := by
  constructor
  · cases lastTime with
    | none => simp [processCommandDispatch]
    | some lt =>
      simp only [processCommandDispatch]
      by_cases h : msg.time > lt <;> simp [h]
  · rfl

/-- C6 counterexample: envelopes named phase_switch, rf_switch, snap_eq
and pam_atten — all listed in the spec's dispatch table — are not
dispatched by _cmd_handler at all: no RUNNING status is written and no
action is invoked (the if/elif chain has no branch for them), refuting
the claim for those four names. -/
theorem cmdHandler_unlisted_names_cex :
    cmdHandler ⟨true, 0, 0, 0, 0, 0, 0, 0⟩ ⟨"phase_switch", 100⟩ false = ([], none) ∧
    cmdHandler ⟨true, 0, 0, 0, 0, 0, 0, 0⟩ ⟨"rf_switch", 200⟩ false = ([], none) ∧
    cmdHandler ⟨true, 0, 0, 0, 0, 0, 0, 0⟩ ⟨"snap_eq", 300⟩ false = ([], none) ∧
    cmdHandler ⟨true, 0, 0, 0, 0, 0, 0, 0⟩ ⟨"pam_atten", 400⟩ false = ([], none) := by
  decide

/-- C6 (amended): the executor's dispatch table holds only record, stop,
hard_stop and start.  For those four names (outside testmode) the first
status written is "running" and at least one external action is launched,
in every environment; for phase_switch, rf_switch, snap_eq and pam_atten
the handler writes no status and launches no action. -/
theorem cmdHandler_dispatch_table (env : ExecEnv) (t : ℚ) :
    (∀ name, name ∈ ["record", "stop", "hard_stop", "start"] →
      (statusWrites (cmdHandler env ⟨name, t⟩ false).1).head? = some "running" ∧
      actionsRun (cmdHandler env ⟨name, t⟩ false).1 ≠ []) ∧
    (∀ name, name ∈ ["phase_switch", "rf_switch", "snap_eq", "pam_atten"] →
      cmdHandler env ⟨name, t⟩ false = ([], none)) := by
  rcases env with ⟨se, ctl, cat, f1, f2, xr, cu, tt⟩
  constructor
  · intro name h
    simp only [List.mem_cons, List.not_mem_nil, or_false] at h
    rcases h with rfl | rfl | rfl | rfl
    · cases se <;> by_cases h1 : ctl ≠ 0 <;> by_cases h2 : cat ≠ 0 <;>
        simp [cmdHandler, startCapture, stopCapture, statusWrites, actionsRun, h1, h2]
    · cases se <;> simp [cmdHandler, stopCapture, statusWrites, actionsRun]
    · simp [cmdHandler, xtorDown, statusWrites, actionsRun]
    · by_cases h1 : f1 ≠ 0 <;> by_cases h2 : f2 ≠ 0 <;> by_cases h3 : xr ≠ 0 <;>
        by_cases h4 : cu ≠ 0 <;>
        simp [cmdHandler, xtorUp, statusWrites, actionsRun, h1, h2, h3, h4]
  · intro name h
    simp only [List.mem_cons, List.not_mem_nil, or_false] at h
    rcases h with rfl | rfl | rfl | rfl <;> rfl

/-- C6 witness: the amended theorem applied at a concrete environment and
time, with the list-membership hypotheses discharged for "record" and
"phase_switch". -/
theorem cmdHandler_dispatch_table_witness :
    ((statusWrites (cmdHandler ⟨false, 0, 0, 0, 0, 0, 0, 7⟩ ⟨"record", 9⟩ false).1).head?
        = some "running" ∧
      actionsRun (cmdHandler ⟨false, 0, 0, 0, 0, 0, 0, 7⟩ ⟨"record", 9⟩ false).1 ≠ []) ∧
    cmdHandler ⟨false, 0, 0, 0, 0, 0, 0, 7⟩ ⟨"phase_switch", 9⟩ false = ([], none) :=
  ⟨(cmdHandler_dispatch_table ⟨false, 0, 0, 0, 0, 0, 0, 7⟩ 9).1 "record" (by decide),
   (cmdHandler_dispatch_table ⟨false, 0, 0, 0, 0, 0, 0, 7⟩ 9).2 "phase_switch" (by decide)⟩

/-
Caller-side guarded operations (hera_corr_cm/hera_corr_cm.py).  Each
public method is modelled as a function from the shared state it reads to
the pair (command names written to corr:command, return value).  The
_send_message helper always succeeds in the source (redis set, then
return message), so the dead `if sent_message is None` branches are not
modelled.  The ant arguments are typed Option Int, so the source's
isinstance(ant, int) check is satisfied by construction.
-/

/-- HeraCorrCM._require_not_recording (lines 201-211): blocks (False)
exactly when the correlator is recording and danger_mode is off. -/
def requireNotRecording (recording danger : Bool) : Bool :=
  if recording then
    if danger then true else false
  else true

/-- The shared state a single guarded caller operation observes:
`recording` is is_recording()'s flag, `danger` the instance's
danger_mode, `response` the result of _get_response for the message the
operation sends (none = Python None: timeout or errored), and the three
post-state flags are the verification reads phase_switch_is_on,
noise_diode_is_on and load_is_on made after a response arrives. -/
structure CallerEnv where
  recording : Bool
  danger : Bool
  response : Option RespObj
  phaseSwitchOn : Bool
  noiseOn : Bool
  loadOn : Bool
deriving DecidableEq

/-- HeraCorrCM.phase_switch_disable (lines 288-304): guard, send
phase_switch, then succeed only if the phase switch now reads off. -/
def phase_switch_disable (env : CallerEnv) : List String × Bool :=
  if requireNotRecording env.recording env.danger then
    match env.response with
    | none => (["phase_switch"], false)
    | some _ => (["phase_switch"], !env.phaseSwitchOn)
  else ([], false)

/-- HeraCorrCM.phase_switch_enable (lines 306-323): guard, send
phase_switch, then succeed only if the phase switch now reads on. -/
def phase_switch_enable (env : CallerEnv) : List String × Bool :=
  if requireNotRecording env.recording env.danger then
    match env.response with
    | none => (["phase_switch"], false)
    | some _ => (["phase_switch"], env.phaseSwitchOn)
  else ([], false)

/-- HeraCorrCM.antenna_enable (lines 406-429): guard, send rf_switch
input_sel=antenna; for a single antenna a response suffices, for all
antennas both noise and load must now read off. -/
def antenna_enable (env : CallerEnv) (ant : Option Int) : List String × Bool :=
  if requireNotRecording env.recording env.danger then
    match env.response with
    | none => (["rf_switch"], false)
    | some _ => (["rf_switch"], ant.isSome || (!env.noiseOn && !env.loadOn))
  else ([], false)

/-- HeraCorrCM.noise_diode_enable (lines 431-454): guard, send rf_switch
input_sel=noise; for all antennas, noise must now read on and load off. -/
def noise_diode_enable (env : CallerEnv) (ant : Option Int) : List String × Bool :=
  if requireNotRecording env.recording env.danger then
    match env.response with
    | none => (["rf_switch"], false)
    | some _ => (["rf_switch"], ant.isSome || (env.noiseOn && !env.loadOn))
  else ([], false)

/-- HeraCorrCM.load_enable (lines 468-491): guard, send rf_switch
input_sel=load; for all antennas, load must now read on and noise off. -/
def load_enable (env : CallerEnv) (ant : Option Int) : List String × Bool :=
  if requireNotRecording env.recording env.danger then
    match env.response with
    | none => (["rf_switch"], false)
    | some _ => (["rf_switch"], ant.isSome || (env.loadOn && !env.noiseOn))
  else ([], false)

/-- HeraCorrCM.set_eq_coeffs (lines 525-543): sends snap_eq immediately —
the source performs no _require_not_recording check — and succeeds iff a
response arrives. -/
def set_eq_coeffs (env : CallerEnv) (ant : Int) (pol : String)
    (coeffs : List ℚ) : List String × Bool :=
  match env.response with
  | none => (["snap_eq"], false)
  | some _ => (["snap_eq"], true)

/-- HeraCorrCM.set_pam_atten (lines 594-611): sends pam_atten rw=w
immediately — the source performs no _require_not_recording check — and
succeeds iff a response arrives. -/
def set_pam_atten (env : CallerEnv) (ant : Int) (pol : String)
    (atten : ℚ) : List String × Bool :=
  match env.response with
  | none => (["pam_atten"], false)
  | some _ => (["pam_atten"], true)

/-- C7 counterexample: with the correlator recording and no override,
set_pam_atten and set_eq_coeffs still write their command envelope to the
store and even return success when a response arrives — refuting the
claim that every guarded operation (which per the spec includes the
attenuation change and the EQ upload) returns a failure without
publishing while recording. -/
theorem set_atten_eq_not_guarded_cex :
    set_pam_atten ⟨true, false, some [], false, false, false⟩ 0 "e" 5 =
      (["pam_atten"], true) ∧
    set_eq_coeffs ⟨true, false, some [], false, false, false⟩ 0 "e" [] =
      (["snap_eq"], true) := by
  exact ⟨rfl, rfl⟩

/-- C7 (amended): while recording with no override, the phase-switch
toggles and the three rf-switch operations return False and write no
command envelope; but set_pam_atten and set_eq_coeffs are not guarded —
they write their envelope regardless of the recording state. -/
theorem recording_guard_blocks (env : CallerEnv) (ant : Option Int)
    (a : Int) (p : String) (v : ℚ) (cs : List ℚ)
    (hrec : env.recording = true) (hdgr : env.danger = false) :
    phase_switch_disable env = ([], false) ∧
    phase_switch_enable env = ([], false) ∧
    antenna_enable env ant = ([], false) ∧
    noise_diode_enable env ant = ([], false) ∧
    load_enable env ant = ([], false) ∧
    (set_pam_atten env a p v).1 = ["pam_atten"] ∧
    (set_eq_coeffs env a p cs).1 = ["snap_eq"] := by
  have hg : requireNotRecording env.recording env.danger = false := by
    rw [hrec, hdgr]; rfl
  refine ⟨?_, ?_, ?_, ?_, ?_, ?_, ?_⟩ <;>
    simp [phase_switch_disable, phase_switch_enable, antenna_enable,
      noise_diode_enable, load_enable, set_pam_atten, set_eq_coeffs, hg] <;>
    cases env.response <;> rfl

/-- C7 witness: the amended theorem at a concrete recording, no-override
environment. -/
theorem recording_guard_blocks_witness :
    phase_switch_disable ⟨true, false, none, false, false, false⟩ = ([], false) ∧
    phase_switch_enable ⟨true, false, none, false, false, false⟩ = ([], false) ∧
    antenna_enable ⟨true, false, none, false, false, false⟩ none = ([], false) ∧
    noise_diode_enable ⟨true, false, none, false, false, false⟩ none = ([], false) ∧
    load_enable ⟨true, false, none, false, false, false⟩ none = ([], false) ∧
    (set_pam_atten ⟨true, false, none, false, false, false⟩ 0 "e" 5).1 = ["pam_atten"] ∧
    (set_eq_coeffs ⟨true, false, none, false, false, false⟩ 0 "e" []).1 = ["snap_eq"] :=
  recording_guard_blocks ⟨true, false, none, false, false, false⟩ none 0 "e" 5 []
    rfl rfl

/-- The value HeraCorrCM.take_data returns: False on any failure path, or
the accepted start time (in ms) from the executor's response. -/
inductive TDResult where
  | failed
  | started (t : ℚ)
deriving DecidableEq

/-- HeraCorrCM.take_data (lines 221-276).  `recording` is the flag read
by is_recording(); `danger` is the instance's danger_mode, which this
method never consults (it checks the recording flag directly rather than
calling _require_not_recording); `starttime` is the requested start (ms);
`response` is _get_response's result for the record message.  On a
response, the accepted start time is read from response["starttime"]
(any parse failure returns False), and a commanded-minus-accepted
difference of more than 250 ms returns False; otherwise the accepted
start time is returned. -/
def take_data (recording danger : Bool) (starttime : ℚ)
    (response : Option RespObj) : List String × TDResult :=
  if recording then ([], .failed)
  else
    match response with
    | none => (["record"], .failed)
    | some resp =>
      match rlookup resp "starttime" with
      | none => (["record"], .failed)
      | some accepted =>
        if starttime - accepted > 250 then (["record"], .failed)
        else (["record"], .started accepted)

/-- C9: when take_data gets a COMPLETE response carrying an accepted
starttime, it returns the accepted start time when the difference
requested minus accepted is within 250 ms, and returns False (despite the
executor-side COMPLETE) when that difference exceeds 250 ms. -/
theorem take_data_tolerance (danger : Bool) (starttime accepted : ℚ)
    (resp : RespObj) (hs : rlookup resp "starttime" = some accepted) :
    (starttime - accepted ≤ 250 →
      take_data false danger starttime (some resp) =
        (["record"], TDResult.started accepted)) ∧
    (250 < starttime - accepted →
      take_data false danger starttime (some resp) =
        (["record"], TDResult.failed)) := by
  constructor
  · intro h
    simp [take_data, hs, not_lt.mpr h]
  · intro h
    simp [take_data, hs, h]

/-- C9 witness: requested 1000 ms, accepted 900 ms (difference 100 ms,
within tolerance) returns started 900; requested 1300 ms against the same
accepted 900 (difference 400 ms) would fail, but the witness instantiates
the in-tolerance conjunct. -/
theorem take_data_tolerance_witness :
    (1000 : ℚ) - 900 ≤ 250 ∧
    take_data false false 1000 (some [("starttime", 900)]) =
      (["record"], TDResult.started 900) :=
  ⟨by norm_num,
   (take_data_tolerance false 1000 900 [("starttime", 900)] (by decide)).1 (by norm_num)⟩

/-- C10: take_data's recording guard admits no override: whenever the
recording flag reads true it returns False and writes no command
envelope, for either value of danger_mode — in contrast with
_require_not_recording, which under danger_mode lets a recording state
pass (second conjunct). -/
theorem take_data_guard_no_override (danger : Bool) (starttime : ℚ)
    (response : Option RespObj) :
    take_data true danger starttime response = ([], TDResult.failed) ∧
    requireNotRecording true true = true := by
  exact ⟨rfl, rfl⟩
